import Mathlib

/-!
Verification of the LightGBM price and sales prediction pipeline
(scripts/lightGBM_model.py of the ML-service repository).

The embedding models a pandas DataFrame as a column-name list together
with row-major cells.  A cell is an optional rational: `none` plays the
role of NaN (missing data), and numeric values (including the 0/1
encodings of booleans and the category codes of categorical columns)
are rationals.  Fallible pandas operations (column access on a missing
column, integer casts of missing values) return `Except PyErr`,
mirroring the Python exceptions they raise.
-/

namespace MLService

/-- A cell of a DataFrame: `none` models NaN / missing data. -/
abbrev Cell := Option ℚ

/-- A stdout line, as a character list. -/
abbrev Line := List Char

/-- The Python exceptions that the script can raise, in structured form. -/
inductive PyErr
  | keyError (missing : List String)
  | valueError (msg : String)
  | typeError (msg : String)
  | fileNotFound (path : String)
  | loadError (path : String)
deriving DecidableEq, Repr

/-- Rendering of a list of column names, as pandas does in KeyError messages. -/
def renderKeyList (l : List String) : String :=
  "[" ++ String.intercalate ", " (l.map (fun s => "\x27" ++ s ++ "\x27")) ++ "]"

/-- The message carried by `str(e)` for each exception. -/
def PyErr.msgStr : PyErr → String
  | .keyError missing => "\x22" ++ renderKeyList missing ++ " not in index\x22"
  | .valueError m => m
  | .typeError m => m
  | .fileNotFound p => "[Errno 2] No such file or directory: \x27" ++ p ++ "\x27"
  | .loadError p => "could not load artifact: " ++ p

instance {ε α : Type} [DecidableEq ε] [DecidableEq α] : DecidableEq (Except ε α) :=
  fun a b =>
    match a, b with
    | .ok x, .ok y => if h : x = y then .isTrue (by rw [h]) else .isFalse (by simp [h])
    | .error x, .error y => if h : x = y then .isTrue (by rw [h]) else .isFalse (by simp [h])
    | .ok _, .error _ => .isFalse (by simp)
    | .error _, .ok _ => .isFalse (by simp)

/-- A pandas DataFrame: ordered column names and row-major cells.
Each row is aligned with `cols` positionally. -/
structure DataFrame where
  cols : List String
  rows : List (List Cell)
deriving DecidableEq, Repr

/-- Reads the cell of a row at the first occurrence of a column name
(scanning names and cells in parallel). -/
def lookupCell : List String → List Cell → String → Cell
  | [], _, _ => none
  | _, [], _ => none
  | c0 :: cs, v :: vs, c => if c0 = c then v else lookupCell cs vs c

/-- Replaces the cell of a row at the first occurrence of a column name. -/
def setCell : List String → List Cell → String → (Cell → Cell) → List Cell
  | [], vs, _, _ => vs
  | _ :: _, [], _, _ => []
  | c0 :: cs, v :: vs, c, f =>
    if c0 = c then f v :: vs else v :: setCell cs vs c f

/-- Column access `df[col]` returning the cells of the column; raises
KeyError when the column is absent. -/
def DataFrame.getCol (df : DataFrame) (c : String) : Except PyErr (List Cell) :=
  if c ∈ df.cols then .ok (df.rows.map (fun r => lookupCell df.cols r c))
  else .error (.keyError [c])

/-- Column selection `df[names]`: restricts (and reorders) the frame to
the given names; raises KeyError naming every requested column that is
absent. -/
def DataFrame.select (df : DataFrame) (names : List String) : Except PyErr DataFrame :=
  let missing := names.filter (fun c => decide (c ∉ df.cols))
  if missing = [] then
    .ok ⟨names, df.rows.map (fun r => names.map (fun c => lookupCell df.cols r c))⟩
  else .error (.keyError missing)

/-- Truncation toward zero, the semantics of the numpy float-to-int cast. -/
def truncRat (q : ℚ) : ℚ :=
  ((if q.num < 0 then -(Int.ofNat (q.num.natAbs / q.den)) else Int.ofNat (q.num.natAbs / q.den) : ℤ) : ℚ)

/-- The in-place cast `df[c] = df[c].astype(int)`: raises KeyError when the
column is absent and ValueError when the column holds a NaN cell
(pandas cannot cast non-finite values to int); otherwise truncates every
cell of the column toward zero. -/
def DataFrame.astypeIntCol (df : DataFrame) (c : String) : Except PyErr DataFrame :=
  if c ∈ df.cols then
    if df.rows.all (fun r => (lookupCell df.cols r c).isSome) then
      .ok ⟨df.cols, df.rows.map (fun r => setCell df.cols r c (fun v => some (truncRat (v.getD 0))))⟩
    else .error (.valueError "Cannot convert non-finite values (NA or inf) to integer")
  else .error (.keyError [c])

/-- The filter `df.dropna(subset=subset)`: keeps the rows whose cells are
present in every subset column; raises KeyError when a subset column is
absent from the frame. -/
def DataFrame.dropnaSubset (df : DataFrame) (subset : List String) : Except PyErr DataFrame :=
  let missing := subset.filter (fun c => decide (c ∉ df.cols))
  if missing = [] then
    .ok ⟨df.cols, df.rows.filter (fun r => subset.all (fun c => (lookupCell df.cols r c).isSome))⟩
  else .error (.keyError missing)

/-- Insertion into a sorted list of rationals. -/
def insertSorted (x : ℚ) : List ℚ → List ℚ
  | [] => [x]
  | y :: ys => if x ≤ y then x :: y :: ys else y :: insertSorted x ys

/-- Ascending insertion sort on rationals. -/
def sortQ (l : List ℚ) : List ℚ := l.foldr insertSorted []

/-- The pandas `Series.quantile(q)` with the default linear interpolation:
NaN cells are skipped, the remaining values are sorted, and the quantile
interpolates linearly between the neighbouring order statistics; the
quantile of an empty series is NaN. -/
def quantileLinear (cells : List Cell) (q : ℚ) : Cell :=
  let xs := sortQ (cells.filterMap id)
  match xs with
  | [] => none
  | _ =>
    let n : ℚ := (xs.length : ℚ)
    let h : ℚ := q * (n - 1)
    let i : ℕ := (Int.fdiv h.num h.den).toNat
    let g : ℚ := h - (i : ℚ)
    let xi := xs.getD i 0
    let xi1 := xs.getD (i + 1) xi
    some (xi + g * (xi1 - xi))

/-- The row predicate `(df[col] >= lb) & (df[col] <= ub)`: comparisons with
NaN (on either side) are false, so NaN cells and NaN bounds discard rows. -/
def cellInBounds (lb ub v : Cell) : Bool :=
  match lb, ub, v with
  | some l, some u, some x => decide (l ≤ x) && decide (x ≤ u)
  | _, _, _ => false

/-- One iteration of the loop of remove_outliers: quantile bounds of one
column, computed on the current frame, then the boolean-mask filter. -/
def outlierStep (df : DataFrame) (col : String) (lq uq : ℚ) : Except PyErr DataFrame :=
  match df.getCol col with
  | .error e => .error e
  | .ok cells =>
    let lb := quantileLinear cells lq
    let ub := quantileLinear cells uq
    .ok ⟨df.cols, df.rows.filter (fun r => cellInBounds lb ub (lookupCell df.cols r col))⟩

/-- LightGBMPredictor.remove_outliers: for each listed column in order,
computes the quantile bounds on the currently filtered frame and keeps
the rows inside the bounds. -/
def remove_outliers (df : DataFrame) (columns : List String) (lq uq : ℚ) : Except PyErr DataFrame :=
  match columns with
  | [] => .ok df
  | col :: rest =>
    match outlierStep df col lq uq with
    | .error e => .error e
    | .ok df2 => remove_outliers df2 rest lq uq

/-- The required-column list of LightGBMPredictor.validate_data. -/
def required_columns : List String :=
  ["price_target", "sales_target", "brand", "region", "category", "seller", "price", "original_price"]

/-- LightGBMPredictor.validate_data: all required columns present and at
least 10 rows. -/
def validate_data (df : DataFrame) : Bool :=
  let missing := required_columns.filter (fun c => decide (c ∉ df.cols))
  if missing ≠ [] then false
  else if df.rows.length < 10 then false
  else true

/-- The categorical feature names of _prepare_features, in source order. -/
def categorical_features_list : List String :=
  ["brand", "region", "category", "seller", "day_of_week", "month", "quarter"]

/-- The numerical feature names of _prepare_features, in source order. -/
def numerical_features_list : List String :=
  ["price", "original_price", "discount_percentage", "stock_level",
   "customer_rating", "review_count", "delivery_days", "is_weekend", "is_holiday",
   "sales_quantity_lag_1", "price_lag_1", "sales_quantity_lag_3", "price_lag_3",
   "sales_quantity_lag_7", "price_lag_7", "sales_quantity_rolling_mean_3",
   "price_rolling_mean_3", "sales_quantity_rolling_mean_7", "price_rolling_mean_7"]

/-- LightGBMPredictor._prepare_features: casts is_weekend and is_holiday to
int in place, casts the categorical columns to the category dtype (which
keeps every cell value, so it is the identity in this embedding), and
returns the frame restricted to the combined feature list, together with
the ordered feature names and the categorical subset. -/
def _prepare_features (df : DataFrame) :
    Except PyErr (DataFrame × List String × List String) :=
  let feature_names := numerical_features_list ++ categorical_features_list
  match df.astypeIntCol "is_weekend" with
  | .error e => .error e
  | .ok df1 =>
    match df1.astypeIntCol "is_holiday" with
    | .error e => .error e
    | .ok df2 =>
      match df2.select feature_names with
      | .error e => .error e
      | .ok X => .ok (X, feature_names, categorical_features_list)

/-- Modelled from the spec: the contrasted alternative outlier semantics in
which the quantile bounds of every listed column are computed on the
original frame, and the rows outside the bounds of any column are then
discarded.  This is the behaviour the spec explicitly distinguishes from
the sequential implementation. -/
def remove_outliers_indep (df : DataFrame) (columns : List String) (lq uq : ℚ) :
    Except PyErr DataFrame :=
  match columns with
  | [] => .ok df
  | col :: rest =>
    match df.getCol col with
    | .error e => .error e
    | .ok cells =>
      let lb := quantileLinear cells lq
      let ub := quantileLinear cells uq
      match remove_outliers_indep df rest lq uq with
      | .error e => .error e
      | .ok df2 =>
        .ok ⟨df2.cols, df2.rows.filter (fun r => cellInBounds lb ub (lookupCell df2.cols r col))⟩

/-- The persisted feature schema document feature_info.json. -/
structure FeatureInfo where
  feature_names : List String
  categorical_features : List String
deriving DecidableEq, Repr

/-- An on-disk artifact: missing file, unreadable or malformed content, or a
well-formed value. -/
inductive Artifact (α : Type)
  | absent
  | malformed
  | good (a : α)
deriving DecidableEq, Repr

/-- Whether an artifact holds a well-formed value. -/
def Artifact.isGood {α : Type} : Artifact α → Bool
  | .good _ => true
  | _ => false

/-- Reading and deserializing an artifact: raises for a missing or malformed
file, mirroring open and pickle.load and json.load. -/
def Artifact.read {α : Type} : Artifact α → String → Except PyErr α
  | .absent, path => .error (.fileNotFound path)
  | .malformed, path => .error (.loadError path)
  | .good a, _ => .ok a

/-- The content of the model directory: whether the directory exists, and
the three artifacts price_model.pkl, sales_model.pkl, feature_info.json.
The trained boosters are opaque values of type M (pickle round-trips them
exactly). -/
structure FileSystem (M : Type) where
  dirExists : Bool
  price_model : Artifact M
  sales_model : Artifact M
  feature_info : Artifact FeatureInfo
deriving DecidableEq, Repr

/-- The mutable state of a LightGBMPredictor instance. -/
structure PredictorState (M : Type) where
  model_dir : String
  price_model : Option M
  sales_model : Option M
  feature_names : Option (List String)
  categorical_features : Option (List String)
deriving DecidableEq, Repr

/-- LightGBMPredictor.__init__: every field starts as None. -/
def initState (M : Type) (model_dir : String) : PredictorState M :=
  ⟨model_dir, none, none, none, none⟩

/-- LightGBMPredictor.save_models: writes each artifact only when the
corresponding state field is set; the schema document bundles the feature
names with the categorical subset. -/
def save_models {M : Type} (st : PredictorState M) (fs : FileSystem M) : FileSystem M :=
  let fs1 := match st.price_model with
    | some m => { fs with price_model := .good m }
    | none => fs
  let fs2 := match st.sales_model with
    | some m => { fs1 with sales_model := .good m }
    | none => fs1
  match st.feature_names, st.categorical_features with
  | some fn, some cf => { fs2 with feature_info := Artifact.good ⟨fn, cf⟩ }
  | _, _ => fs2

/-- The diagnostic printed to stdout by the except branch of load_models. -/
def loadErrLine (e : PyErr) : Line :=
  "Error loading models: ".data ++ e.msgStr.data

/-- LightGBMPredictor.load_models: reads the three artifacts in order,
updating the state after each successful read; the first failure is caught,
a diagnostic is printed, and False is returned (state updates made before
the failure are kept, as in the Python try block). -/
def load_models {M : Type} (fs : FileSystem M) (st : PredictorState M) :
    PredictorState M × Bool × List Line :=
  match fs.price_model.read (st.model_dir ++ "/price_model.pkl") with
  | .error e => (st, false, [loadErrLine e])
  | .ok pm =>
    let st1 := { st with price_model := some pm }
    match fs.sales_model.read (st.model_dir ++ "/sales_model.pkl") with
    | .error e => (st1, false, [loadErrLine e])
    | .ok sm =>
      let st2 := { st1 with sales_model := some sm }
      match fs.feature_info.read (st.model_dir ++ "/feature_info.json") with
      | .error e => (st2, false, [loadErrLine e])
      | .ok fi =>
        ({ st2 with feature_names := some fi.feature_names,
                    categorical_features := some fi.categorical_features }, true, [])

/-- The body of LightGBMPredictor.predict after the model-availability
check: builds a one-row frame from the record (keys in record order),
casts is_weekend and is_holiday to int when present, casts the categorical
columns (value-preserving), restricts to the stored feature order, and
runs both boosters on the row.  runM is the opaque booster inference. -/
def predictRecord {M : Type} (runM : M → DataFrame → ℚ) (st : PredictorState M)
    (product : List (String × Cell)) : Except PyErr (ℚ × ℚ) :=
  let df : DataFrame := ⟨product.map Prod.fst, [product.map Prod.snd]⟩
  match (if "is_weekend" ∈ df.cols then df.astypeIntCol "is_weekend" else .ok df) with
  | .error e => .error e
  | .ok df1 =>
    match (if "is_holiday" ∈ df1.cols then df1.astypeIntCol "is_holiday" else .ok df1) with
    | .error e => .error e
    | .ok df2 =>
      match st.categorical_features with
      | none => .error (.typeError "\x27NoneType\x27 object is not iterable")
      | some _ =>
        match st.feature_names with
        | none => .error (.keyError [])
        | some fn =>
          match df2.select fn with
          | .error e => .error e
          | .ok x =>
            match st.price_model, st.sales_model with
            | some pm, some sm => .ok (runM pm x, runM sm x)
            | _, _ => .error (.typeError "\x27NoneType\x27 object has no attribute \x27predict\x27")

/-- LightGBMPredictor.predict: when either model is not resident, loads the
bundle first, raising ValueError when that load fails; then runs the
prediction body.  Returns the updated state, the stdout lines printed by
the load, and the result or the raised exception. -/
def predict {M : Type} (fs : FileSystem M) (runM : M → DataFrame → ℚ)
    (st : PredictorState M) (product : List (String × Cell)) :
    PredictorState M × List Line × Except PyErr (ℚ × ℚ) :=
  if st.price_model.isNone || st.sales_model.isNone then
    match load_models fs st with
    | (st2, true, ls) => (st2, ls, predictRecord runM st2 product)
    | (st2, false, ls) => (st2, ls, .error (.valueError "Models not trained or loaded properly"))
  else (st, [], predictRecord runM st product)

/-- A stdout line of log_info. -/
def infoLine (msg : String) : Line := "INFO: ".data ++ msg.data

/-- The json.dumps rendering of the error object printed on a predict
failure. -/
def jsonErrorLine (msg : String) : Line :=
  "\x7b\x22error\x22: \x22".data ++ msg.data ++ "\x22\x7d".data

/-- A fixed-point rendering of a rational, standing in for the decimal
rendering of a Python float in json.dumps and log messages. -/
def fmt2 (q : ℚ) : String := toString q.num ++ "/" ++ toString q.den

/-- The json.dumps rendering of a successful prediction object. -/
def jsonPredLine (p s : ℚ) : Line :=
  "\x7b\x22predicted_price\x22: ".data ++ (fmt2 p).data ++
    ", \x22predicted_sales\x22: ".data ++ (fmt2 s).data ++ "\x7d".data

/-- Whether a stdout line carries the INFO: diagnostic prefix. -/
def isInfoLine (l : Line) : Bool := "INFO:".data.isPrefixOf l

/-- Whether a stdout line is the unprefixed diagnostic of a failed model
load. -/
def isLoadErrLine (l : Line) : Bool := "Error loading models:".data.isPrefixOf l

/-- The predict branch of main: parses the JSON argument (the parse outcome
is a parameter), constructs the predictor (which creates the model
directory), runs the prediction, and prints either the prediction object
or the error object; every failure is caught and exits with code 1.
Returns the final file system, the stdout lines in print order, and the
exit code. -/
def mainPredict {M : Type} (fs : FileSystem M) (runM : M → DataFrame → ℚ)
    (parse : Except Unit (List (String × Cell))) (rawArg modelDir : String) :
    FileSystem M × List Line × ℕ :=
  let l0 := infoLine ("Запуск с параметрами: action=predict, data=" ++ rawArg ++
    ", model_dir=" ++ modelDir)
  let fs1 := { fs with dirExists := true }
  match parse with
  | .error _ =>
    (fs1, [l0, infoLine "ОШИБКА: некорректный формат JSON для предсказания",
           jsonErrorLine "Invalid JSON input for prediction"], 1)
  | .ok product =>
    let l1 := infoLine "Запуск предсказания для данных продукта"
    match predict fs1 runM (initState M modelDir) product with
    | (_, ls, .ok (p, s)) =>
      (fs1, [l0, l1] ++ ls ++
        [infoLine ("Результат предсказания: цена=" ++ fmt2 p ++ ", продажи=" ++ fmt2 s),
         jsonPredLine p s], 0)
    | (_, ls, .error e) =>
      (fs1, [l0, l1] ++ ls ++
        [infoLine ("ОШИБКА при предсказании: " ++ e.msgStr),
         jsonErrorLine e.msgStr], 1)

/-- The data-preparation segment of LightGBMPredictor.train: validation of
both frames, outlier removal on the training frame only, then dropping of
rows with missing targets from both frames. -/
def trainDataPrep (train_df val_df : DataFrame) : Except PyErr (DataFrame × DataFrame) :=
  if !(validate_data train_df && validate_data val_df) then
    .error (.valueError "Некорректные обучающие или валидационные данные")
  else
    match remove_outliers train_df ["price_target", "sales_target"] (1/100) (99/100) with
    | .error e => .error e
    | .ok t1 =>
      match t1.dropnaSubset ["price_target", "sales_target"] with
      | .error e => .error e
      | .ok t2 =>
        match val_df.dropnaSubset ["price_target", "sales_target"] with
        | .error e => .error e
        | .ok v2 => .ok (t2, v2)

/-- LightGBMPredictor.train after the CSV reads: data preparation, feature
construction for both frames, target extraction, the two booster fits
(opaque, as the fit parameter), and save_models.  Uncaught exceptions
propagate. -/
def trainRun {M : Type} (fs : FileSystem M)
    (fit : DataFrame → List Cell → DataFrame → List Cell → M)
    (readTrain readVal : Except PyErr DataFrame) (modelDir : String) :
    Except PyErr (FileSystem M) :=
  match readTrain with
  | .error e => .error e
  | .ok train_df =>
    match readVal with
    | .error e => .error e
    | .ok val_df =>
      match trainDataPrep train_df val_df with
      | .error e => .error e
      | .ok (t2, v2) =>
        match _prepare_features t2 with
        | .error e => .error e
        | .ok (x_train, fn, cf) =>
          match t2.getCol "price_target" with
          | .error e => .error e
          | .ok y_price =>
            match t2.getCol "sales_target" with
            | .error e => .error e
            | .ok y_sales =>
              match _prepare_features v2 with
              | .error e => .error e
              | .ok (x_val, _, _) =>
                match v2.getCol "price_target" with
                | .error e => .error e
                | .ok yv_price =>
                  match v2.getCol "sales_target" with
                  | .error e => .error e
                  | .ok yv_sales =>
                    let pm := fit x_train y_price x_val yv_price
                    let sm := fit x_train y_sales x_val yv_sales
                    .ok (save_models ⟨modelDir, some pm, some sm, some fn, some cf⟩ fs)

/-- The observable end of a process invocation: a normal exit code, or a
crash from an uncaught exception. -/
inductive RunOutcome
  | exited (code : ℕ)
  | crashed (e : PyErr)
deriving DecidableEq, Repr

/-- The train branch of main: constructs the predictor (which creates the
model directory), exits 1 when --val-data is missing, and otherwise runs
training; training exceptions are not caught and crash the process. -/
def mainTrain {M : Type} (fs : FileSystem M) (valProvided : Bool)
    (fit : DataFrame → List Cell → DataFrame → List Cell → M)
    (readTrain readVal : Except PyErr DataFrame) (modelDir : String) :
    FileSystem M × RunOutcome :=
  let fs1 := { fs with dirExists := true }
  if !valProvided then (fs1, .exited 1)
  else
    match trainRun fs1 fit readTrain readVal modelDir with
    | .ok fs2 => (fs2, .exited 0)
    | .error e => (fs1, .crashed e)

/-! Concrete inputs used by witnesses and counterexamples. -/

/-- A three-row frame whose price extremes coincide with sales rows that a
frame-global sales bound would also cut: it separates the sequential
outlier filter from the frame-global variant. -/
def dfOutlier : DataFrame :=
  ⟨["price_target", "sales_target"],
   [[some 0, some 100], [some 10, some 1], [some 20, some 2]]⟩

/-- The frame left behind by the price_target pass over dfOutlier. -/
def dfMid : DataFrame :=
  ⟨["price_target", "sales_target"], [[some 10, some 1]]⟩

/-- One row over the 8 required columns, with both targets equal to 5. -/
def rowW : List Cell := [some 5, some 5, some 1, some 1, some 1, some 1, some 2, some 3]

/-- Ten identical rows over the required columns: validates, and both
quantile passes keep every row. -/
def tW : DataFrame := ⟨required_columns, List.replicate 10 rowW⟩

/-- A one-row frame with every schema column present but a missing value in
is_weekend. -/
def dfNaNWeekend : DataFrame :=
  ⟨numerical_features_list ++ categorical_features_list,
   [[some 0, some 0, some 0, some 0, some 0, some 0, some 0, none, some 0,
     some 0, some 0, some 0, some 0, some 0, some 0, some 0, some 0, some 0, some 0,
     some 0, some 0, some 0, some 0, some 0, some 0, some 0]]⟩

/-- A one-row frame with every schema column present and no missing value. -/
def dfAllCols : DataFrame :=
  ⟨numerical_features_list ++ categorical_features_list,
   [[some 0, some 0, some 0, some 0, some 0, some 0, some 0, some 0, some 0,
     some 0, some 0, some 0, some 0, some 0, some 0, some 0, some 0, some 0, some 0,
     some 0, some 0, some 0, some 0, some 0, some 0, some 0]]⟩

/-- A concrete trained predictor state over natural-number model stand-ins. -/
def stTrained : PredictorState ℕ := ⟨"m", some 1, some 2, some ["a"], some []⟩

/-- A concrete file system with an existing, empty model directory. -/
def fsEmptyDir : FileSystem ℕ := ⟨true, .absent, .absent, .absent⟩

/-- A file system holding one good bundle over unit model stand-ins. -/
def fsBundle : FileSystem Unit :=
  ⟨true, .good (), .good (), .good ⟨["price", "sales_quantity_lag_1"], []⟩⟩

/-! Helper lemmas about the DataFrame operations. -/

theorem lookupCell_setCell_ne (cols : List String) (row : List Cell) (c c2 : String)
    (f : Cell → Cell) (hne : c2 ≠ c) :
    lookupCell cols (setCell cols row c f) c2 = lookupCell cols row c2 := by
  induction cols generalizing row with
  | nil => cases row <;> simp [setCell, lookupCell]
  | cons c0 cs ih =>
    cases row with
    | nil => simp [setCell, lookupCell]
    | cons v vs =>
      simp only [setCell]
      by_cases h0 : c0 = c
      · rw [if_pos h0]
        simp only [lookupCell]
        rw [if_neg (fun h2 => hne (h2.symm.trans h0)), if_neg (fun h2 => hne (h2.symm.trans h0))]
      · rw [if_neg h0]
        simp only [lookupCell]
        by_cases h2 : c0 = c2
        · rw [if_pos h2, if_pos h2]
        · rw [if_neg h2, if_neg h2]
          exact ih vs

theorem astypeIntCol_ok_shape (df : DataFrame) (c : String) (df2 : DataFrame)
    (h : df.astypeIntCol c = .ok df2) :
    df2 = ⟨df.cols,
      df.rows.map (fun r => setCell df.cols r c (fun v => some (truncRat (v.getD 0))))⟩ := by
  unfold DataFrame.astypeIntCol at h
  split at h
  · split at h
    · injection h with h2
      exact h2.symm
    · exact absurd h (by simp)
  · exact absurd h (by simp)

theorem astypeIntCol_ok_of (df : DataFrame) (c : String) (hc : c ∈ df.cols)
    (hall : ∀ r ∈ df.rows, (lookupCell df.cols r c).isSome = true) :
    df.astypeIntCol c = .ok ⟨df.cols,
      df.rows.map (fun r => setCell df.cols r c (fun v => some (truncRat (v.getD 0))))⟩ := by
  unfold DataFrame.astypeIntCol
  rw [if_pos hc, if_pos (List.all_eq_true.mpr hall)]

theorem select_ok_of (df : DataFrame) (names : List String)
    (h : ∀ c ∈ names, c ∈ df.cols) :
    df.select names = .ok ⟨names, df.rows.map (fun r => names.map (fun c => lookupCell df.cols r c))⟩ := by
  have hfil : names.filter (fun c => decide (c ∉ df.cols)) = [] :=
    List.filter_eq_nil_iff.mpr (fun c hc => by simpa using h c hc)
  simp only [DataFrame.select]
  rw [if_pos hfil]

theorem select_error_of (df : DataFrame) (names : List String) (f : String)
    (hf : f ∈ names) (hnf : f ∉ df.cols) :
    df.select names = .error (.keyError (names.filter (fun c => decide (c ∉ df.cols)))) := by
  have hfil : names.filter (fun c => decide (c ∉ df.cols)) ≠ [] :=
    List.ne_nil_of_mem (List.mem_filter.mpr ⟨hf, by simpa using hnf⟩)
  simp only [DataFrame.select]
  rw [if_neg hfil]

theorem dropnaSubset_ok_of (df : DataFrame) (s : List String)
    (h : ∀ c ∈ s, c ∈ df.cols) :
    df.dropnaSubset s = .ok ⟨df.cols,
      df.rows.filter (fun r => s.all (fun c => (lookupCell df.cols r c).isSome))⟩ := by
  have hfil : s.filter (fun c => decide (c ∉ df.cols)) = [] :=
    List.filter_eq_nil_iff.mpr (fun c hc => by simpa using h c hc)
  simp only [DataFrame.dropnaSubset]
  rw [if_pos hfil]

theorem dropnaSubset_ok_shape (df : DataFrame) (s : List String) (d : DataFrame)
    (h : df.dropnaSubset s = .ok d) :
    d = ⟨df.cols, df.rows.filter (fun r => s.all (fun c => (lookupCell df.cols r c).isSome))⟩ := by
  simp only [DataFrame.dropnaSubset] at h
  split at h
  · injection h with h2
    exact h2.symm
  · exact absurd h (by simp)

theorem outlierStep_eval0 (df : DataFrame) (col : String) (lq uq : ℚ) (cells : List Cell)
    (lb ub : Cell) (hg : df.getCol col = .ok cells)
    (hlb : quantileLinear cells lq = lb) (hub : quantileLinear cells uq = ub) :
    outlierStep df col lq uq =
      .ok ⟨df.cols, df.rows.filter (fun r => cellInBounds lb ub (lookupCell df.cols r col))⟩ := by
  simp only [outlierStep, hg, hlb, hub]

theorem outlierStep_ok_shape (df : DataFrame) (col : String) (lq uq : ℚ) (d : DataFrame)
    (h : outlierStep df col lq uq = .ok d) :
    d.cols = df.cols ∧ d.rows.Sublist df.rows := by
  cases hg : df.getCol col with
  | error e =>
    unfold outlierStep at h
    rw [hg] at h
    exact absurd h (by simp)
  | ok cells =>
    rw [outlierStep_eval0 df col lq uq cells _ _ hg rfl rfl] at h
    injection h with h2
    rw [← h2]
    exact ⟨rfl, List.filter_sublist df.rows⟩

theorem outlierStep_ok_of (df : DataFrame) (col : String) (lq uq : ℚ) (hc : col ∈ df.cols) :
    ∃ d, outlierStep df col lq uq = .ok d := by
  have hg : df.getCol col = .ok (df.rows.map (fun r => lookupCell df.cols r col)) := by
    unfold DataFrame.getCol
    rw [if_pos hc]
  exact ⟨_, outlierStep_eval0 df col lq uq _ _ _ hg rfl rfl⟩

theorem remove_outliers_total (df : DataFrame) (columns : List String) (lq uq : ℚ)
    (h : ∀ c ∈ columns, c ∈ df.cols) :
    ∃ d, remove_outliers df columns lq uq = .ok d ∧ d.rows.Sublist df.rows ∧ d.cols = df.cols := by
  induction columns generalizing df with
  | nil => exact ⟨df, rfl, List.Sublist.refl df.rows, rfl⟩
  | cons col rest ih =>
    obtain ⟨d1, hd1⟩ := outlierStep_ok_of df col lq uq (h col (List.mem_cons_self col rest))
    obtain ⟨hcols1, hrows1⟩ := outlierStep_ok_shape df col lq uq d1 hd1
    obtain ⟨d, hd, hrows, hcols⟩ := ih d1 (fun c hc => hcols1 ▸ h c (List.mem_cons_of_mem col hc))
    refine ⟨d, ?_, hrows.trans hrows1, hcols.trans hcols1⟩
    unfold remove_outliers
    rw [hd1]
    exact hd

/-! Helper lemmas about persistence and the predict path. -/

theorem save_models_all_set {M : Type} (d : String) (pm sm : M) (fn cf : List String)
    (fs : FileSystem M) :
    save_models ⟨d, some pm, some sm, some fn, some cf⟩ fs =
      { fs with price_model := Artifact.good pm, sales_model := Artifact.good sm,
                feature_info := Artifact.good ⟨fn, cf⟩ } := rfl

theorem save_models_dirExists {M : Type} (st : PredictorState M) (fs : FileSystem M) :
    (save_models st fs).dirExists = fs.dirExists := by
  unfold save_models
  cases st.price_model <;> cases st.sales_model <;>
    cases st.feature_names <;> cases st.categorical_features <;> rfl

theorem load_models_good {M : Type} (pm sm : M) (fi : FeatureInfo) (fs : FileSystem M)
    (st : PredictorState M) (h1 : fs.price_model = .good pm) (h2 : fs.sales_model = .good sm)
    (h3 : fs.feature_info = .good fi) :
    load_models fs st =
      ({ st with price_model := some pm, sales_model := some sm,
                 feature_names := some fi.feature_names,
                 categorical_features := some fi.categorical_features }, true, []) := by
  unfold load_models
  rw [h1, h2, h3]
  rfl

theorem load_models_lines {M : Type} (fs : FileSystem M) (st : PredictorState M) :
    ∀ l ∈ (load_models fs st).2.2, isLoadErrLine l = true := by
  obtain ⟨e, pm, sm, fi⟩ := fs
  have hLE : ∀ er : PyErr, isLoadErrLine (loadErrLine er) = true := fun _ => rfl
  cases pm <;> cases sm <;> cases fi <;>
    simp [load_models, Artifact.read, hLE]

theorem predict_lines {M : Type} (fs : FileSystem M) (runM : M → DataFrame → ℚ)
    (st : PredictorState M) (product : List (String × Cell)) :
    ∀ l ∈ (predict fs runM st product).2.1, isLoadErrLine l = true := by
  intro l hl
  unfold predict at hl
  split at hl
  · rcases hLM : load_models fs st with ⟨st2, ok, ls⟩
    rw [hLM] at hl
    have hls : ∀ x ∈ ls, isLoadErrLine x = true := by
      have h0 := load_models_lines fs st
      rw [hLM] at h0
      exact h0
    cases ok <;> simp only [] at hl <;> exact hls l hl
  · simp at hl

theorem isInfoLine_infoLine (msg : String) : isInfoLine (infoLine msg) = true := rfl

/-- C3: validate_data returns invalid (false) for every DataFrame missing at
least one of the 8 required columns and for every DataFrame with fewer than
10 rows, and returns valid (true) exactly for the DataFrames that contain
all 8 required columns and have at least 10 rows. -/
theorem C3_validate_data_iff (df : DataFrame) :
    validate_data df = true ↔
      ((∀ c ∈ (["price_target", "sales_target", "brand", "region", "category",
               "seller", "price", "original_price"] : List String), c ∈ df.cols) ∧
        10 ≤ df.rows.length) := by
  simp only [validate_data]
  by_cases hm : required_columns.filter (fun c => decide (c ∉ df.cols)) = []
  · have hall : ∀ c ∈ (["price_target", "sales_target", "brand", "region", "category",
        "seller", "price", "original_price"] : List String), c ∈ df.cols := by
      rw [List.filter_eq_nil_iff] at hm
      simpa [required_columns] using hm
    rw [if_neg (not_not_intro hm)]
    by_cases hl : df.rows.length < 10
    · rw [if_pos hl]
      constructor
      · intro h
        exact absurd h Bool.false_ne_true
      · rintro ⟨-, h⟩
        omega
    · rw [if_neg hl]
      constructor
      · intro _
        exact ⟨hall, by omega⟩
      · intro _
        rfl
  · have hex : ¬ (∀ c ∈ (["price_target", "sales_target", "brand", "region", "category",
        "seller", "price", "original_price"] : List String), c ∈ df.cols) := by
      intro hall
      apply hm
      rw [List.filter_eq_nil_iff]
      simpa [required_columns] using hall
    rw [if_pos hm]
    constructor
    · intro h
      exact absurd h Bool.false_ne_true
    · rintro ⟨h, -⟩
      exact absurd h hex

theorem filter_cons_true {α : Type} (p : α → Bool) (a : α) (l : List α) (h : p a = true) :
    List.filter p (a :: l) = a :: List.filter p l := by
  simp [List.filter_cons, h]

theorem filter_cons_false {α : Type} (p : α → Bool) (a : α) (l : List α) (h : p a = false) :
    List.filter p (a :: l) = List.filter p l := by
  simp [List.filter_cons, h]

theorem getLast?_append_pair {α : Type} (xs : List α) (a b : α) :
    (xs ++ [a, b]).getLast? = some b := by
  induction xs with
  | nil => rfl
  | cons x xs ih =>
    cases hxs : xs ++ [a, b] with
    | nil => exact absurd hxs (by simp)
    | cons y ys =>
      rw [List.cons_append, hxs, List.getLast?_cons_cons, ← hxs, ih]

theorem trainRun_dirExists {M : Type} (fs : FileSystem M)
    (fit : DataFrame → List Cell → DataFrame → List Cell → M)
    (readTrain readVal : Except PyErr DataFrame) (modelDir : String) (fs2 : FileSystem M)
    (h : trainRun fs fit readTrain readVal modelDir = .ok fs2) :
    fs2.dirExists = fs.dirExists := by
  unfold trainRun at h
  repeat' split at h
  all_goals simp at h
  all_goals rw [← h]
  all_goals exact save_models_dirExists _ _

/-- C6: load_models never propagates an exception — in this embedding its
try and except body is the total function below — it returns False when any
of the three artifacts is absent, unreadable or malformed, and it returns
True exactly when all three artifacts are read and deserialized
successfully. -/
theorem C6_load_models_never_raises {M : Type} (fs : FileSystem M) (st : PredictorState M) :
    (load_models fs st).2.1 = true ↔
      (fs.price_model.isGood = true ∧ fs.sales_model.isGood = true ∧
        fs.feature_info.isGood = true) := by
  obtain ⟨e, pm, sm, fi⟩ := fs
  cases pm <;> cases sm <;> cases fi <;>
    simp [load_models, Artifact.read, Artifact.isGood]

/-- C8 counterexample: on a frame lacking a listed target column,
remove_outliers raises a KeyError instead of returning a frame, so the
claim that it never raises for every input DataFrame and column list is
false. -/
theorem C8_outlier_filter_cex :
    remove_outliers ⟨["x"], []⟩ ["price_target"] (1/100) (99/100) =
      .error (.keyError ["price_target"]) := by decide

/-- C8 (amended): when every listed column is present in the input frame,
remove_outliers with the default quantile bounds never raises, and its
output keeps the input columns while its rows are a sublist of the input
rows — no row is added or modified, so the result has at most as many rows
as the input. -/
theorem C8_outlier_filter_safe (df : DataFrame) (columns : List String)
    (h : ∀ c ∈ columns, c ∈ df.cols) :
    ∃ d, remove_outliers df columns (1/100) (99/100) = .ok d ∧
      d.rows.Sublist df.rows ∧ d.cols = df.cols :=
  remove_outliers_total df columns (1/100) (99/100) h

/-- C8 witness: the amended theorem applied to a concrete one-column frame. -/
theorem C8_outlier_filter_safe_witness :
    (∀ c ∈ ["price_target"], c ∈ (⟨["price_target"], [[some 1]]⟩ : DataFrame).cols) ∧
    ∃ d, remove_outliers ⟨["price_target"], [[some 1]]⟩ ["price_target"] (1/100) (99/100) = .ok d ∧
      d.rows.Sublist (⟨["price_target"], [[some 1]]⟩ : DataFrame).rows ∧
      d.cols = (⟨["price_target"], [[some 1]]⟩ : DataFrame).cols :=
  ⟨by decide, C8_outlier_filter_safe ⟨["price_target"], [[some 1]]⟩ ["price_target"] (by decide)⟩

/-- C10: every invocation, train or predict, ends with the model directory
existing — it is created while the predictor is constructed, before any
validation, training or model loading — and a predict call against a
nonexistent, empty model directory fails with the models-unavailable error
and exit code 1, yet leaves behind the created, still empty directory. -/
theorem C10_model_dir_side_effect {M : Type} :
    (∀ (fs : FileSystem M) (valProvided : Bool)
        (fit : DataFrame → List Cell → DataFrame → List Cell → M)
        (readTrain readVal : Except PyErr DataFrame) (modelDir : String),
      (mainTrain fs valProvided fit readTrain readVal modelDir).1.dirExists = true) ∧
    (∀ (fs : FileSystem M) (runM : M → DataFrame → ℚ)
        (parse : Except Unit (List (String × Cell))) (rawArg modelDir : String),
      (mainPredict fs runM parse rawArg modelDir).1.dirExists = true) ∧
    (∀ (runM : M → DataFrame → ℚ) (product : List (String × Cell)) (rawArg modelDir : String),
      ∃ out,
        mainPredict ⟨false, .absent, .absent, .absent⟩ runM (.ok product) rawArg modelDir =
          (⟨true, .absent, .absent, .absent⟩, out, 1) ∧
        out.getLast? = some (jsonErrorLine "Models not trained or loaded properly")) := by
  refine ⟨?_, ?_, ?_⟩
  · intro fs valProvided fit readTrain readVal modelDir
    cases valProvided with
    | false => rfl
    | true =>
      simp only [mainTrain]
      rw [show (!true) = false from rfl, if_neg Bool.false_ne_true]
      cases htr : trainRun { fs with dirExists := true } fit readTrain readVal modelDir with
      | ok fs2 => exact (trainRun_dirExists _ fit readTrain readVal modelDir fs2 htr).trans rfl
      | error e => rfl
  · intro fs runM parse rawArg modelDir
    cases parse with
    | error u => rfl
    | ok product =>
      simp only [mainPredict]
      rcases hp : predict { fs with dirExists := true } runM (initState M modelDir) product
        with ⟨st2, ls, res⟩
      cases res with
      | ok v =>
        rcases v with ⟨p, s⟩
        rfl
      | error e => rfl
  · intro runM product rawArg modelDir
    exact ⟨[infoLine ("Запуск с параметрами: action=predict, data=" ++ rawArg ++
        ", model_dir=" ++ modelDir),
      infoLine "Запуск предсказания для данных продукта",
      loadErrLine (.fileNotFound (modelDir ++ "/price_model.pkl")),
      infoLine ("ОШИБКА при предсказании: " ++ "Models not trained or loaded properly"),
      jsonErrorLine "Models not trained or loaded properly"], rfl, rfl⟩

/-- C2: remove_outliers filters sequentially in list order — on a column
list starting with col, it first keeps the rows inside the quantile bounds
of col computed on the incoming frame and only then processes the rest on
the already-filtered frame — and on a concrete frame with target list
[price_target, sales_target] the retained row set differs from the variant
that computes the bounds of both columns on the original frame. -/
theorem C2_outlier_filter_sequential :
    (∀ (df : DataFrame) (col : String) (rest : List String) (lq uq : ℚ),
      remove_outliers df (col :: rest) lq uq =
        match outlierStep df col lq uq with
        | .error e => .error e
        | .ok df2 => remove_outliers df2 rest lq uq) ∧
    (∃ df d1 d2 : DataFrame,
      remove_outliers df ["price_target", "sales_target"] (1/100) (99/100) = .ok d1 ∧
      remove_outliers_indep df ["price_target", "sales_target"] (1/100) (99/100) = .ok d2 ∧
      d1.rows ≠ d2.rows) := by
  constructor
  · intro df col rest lq uq
    rfl
  · have hg1 : dfOutlier.getCol "price_target" = .ok [some 0, some 10, some 20] := by
      decide
    have hg2 : dfOutlier.getCol "sales_target" = .ok [some 100, some 1, some 2] := by
      decide
    have hq1 : quantileLinear [some 0, some 10, some 20] (1/100) = some (1/5) := by
      norm_num [quantileLinear, sortQ, insertSorted, Int.fdiv, List.filterMap_cons,
        List.filterMap_nil, id_eq]
    have hq2 : quantileLinear [some 0, some 10, some 20] (99/100) = some (99/5) := by
      norm_num [quantileLinear, sortQ, insertSorted, Int.fdiv, List.filterMap_cons,
        List.filterMap_nil, id_eq]
    have hr1 : cellInBounds (quantileLinear [some 0, some 10, some 20] (1/100))
        (quantileLinear [some 0, some 10, some 20] (99/100))
        (lookupCell ["price_target", "sales_target"] [some 0, some 100] "price_target") = false := by
      rw [hq1, hq2, show lookupCell ["price_target", "sales_target"] [some 0, some 100]
        "price_target" = some 0 from rfl]
      norm_num [cellInBounds]
    have hr2 : cellInBounds (quantileLinear [some 0, some 10, some 20] (1/100))
        (quantileLinear [some 0, some 10, some 20] (99/100))
        (lookupCell ["price_target", "sales_target"] [some 10, some 1] "price_target") = true := by
      rw [hq1, hq2, show lookupCell ["price_target", "sales_target"] [some 10, some 1]
        "price_target" = some 10 from rfl]
      norm_num [cellInBounds]
    have hr3 : cellInBounds (quantileLinear [some 0, some 10, some 20] (1/100))
        (quantileLinear [some 0, some 10, some 20] (99/100))
        (lookupCell ["price_target", "sales_target"] [some 20, some 2] "price_target") = false := by
      rw [hq1, hq2, show lookupCell ["price_target", "sales_target"] [some 20, some 2]
        "price_target" = some 20 from rfl]
      norm_num [cellInBounds]
    have hs1 : outlierStep dfOutlier "price_target" (1/100) (99/100) = .ok dfMid := by
      rw [outlierStep_eval0 dfOutlier "price_target" (1/100) (99/100) [some 0, some 10, some 20]
        (quantileLinear [some 0, some 10, some 20] (1/100))
        (quantileLinear [some 0, some 10, some 20] (99/100)) hg1 rfl rfl]
      simp only [dfOutlier, List.filter_cons, List.filter_nil, hr1, hr2, hr3]
      simp [dfMid]
    have hgm : dfMid.getCol "sales_target" = .ok [some 1] := by
      decide
    have hq3 : quantileLinear [some 1] (1/100) = some 1 := by
      norm_num [quantileLinear, sortQ, insertSorted, Int.fdiv, List.filterMap_cons,
        List.filterMap_nil, id_eq]
    have hq4 : quantileLinear [some 1] (99/100) = some 1 := by
      norm_num [quantileLinear, sortQ, insertSorted, Int.fdiv, List.filterMap_cons,
        List.filterMap_nil, id_eq]
    have hr4 : cellInBounds (quantileLinear [some 1] (1/100)) (quantileLinear [some 1] (99/100))
        (lookupCell ["price_target", "sales_target"] [some 10, some 1] "sales_target") = true := by
      rw [hq3, hq4, show lookupCell ["price_target", "sales_target"] [some 10, some 1]
        "sales_target" = some 1 from rfl]
      norm_num [cellInBounds]
    have hs2 : outlierStep dfMid "sales_target" (1/100) (99/100) = .ok dfMid := by
      rw [outlierStep_eval0 dfMid "sales_target" (1/100) (99/100) [some 1]
        (quantileLinear [some 1] (1/100)) (quantileLinear [some 1] (99/100)) hgm rfl rfl]
      simp only [dfMid, List.filter_cons, List.filter_nil, hr4]
      simp
    have hseq : remove_outliers dfOutlier ["price_target", "sales_target"] (1/100) (99/100) =
        .ok dfMid := by
      simp only [remove_outliers, hs1, hs2]
    have hq5 : quantileLinear [some 100, some 1, some 2] (1/100) = some (51/50) := by
      norm_num [quantileLinear, sortQ, insertSorted, Int.fdiv, List.filterMap_cons,
        List.filterMap_nil, id_eq]
    have hq6 : quantileLinear [some 100, some 1, some 2] (99/100) = some (2451/25) := by
      norm_num [quantileLinear, sortQ, insertSorted, Int.fdiv, List.filterMap_cons,
        List.filterMap_nil, id_eq]
    have hrs1 : cellInBounds (quantileLinear [some 100, some 1, some 2] (1/100))
        (quantileLinear [some 100, some 1, some 2] (99/100))
        (lookupCell ["price_target", "sales_target"] [some 0, some 100] "sales_target") = false := by
      rw [hq5, hq6, show lookupCell ["price_target", "sales_target"] [some 0, some 100]
        "sales_target" = some 100 from rfl]
      norm_num [cellInBounds]
    have hrs2 : cellInBounds (quantileLinear [some 100, some 1, some 2] (1/100))
        (quantileLinear [some 100, some 1, some 2] (99/100))
        (lookupCell ["price_target", "sales_target"] [some 10, some 1] "sales_target") = false := by
      rw [hq5, hq6, show lookupCell ["price_target", "sales_target"] [some 10, some 1]
        "sales_target" = some 1 from rfl]
      norm_num [cellInBounds]
    have hrs3 : cellInBounds (quantileLinear [some 100, some 1, some 2] (1/100))
        (quantileLinear [some 100, some 1, some 2] (99/100))
        (lookupCell ["price_target", "sales_target"] [some 20, some 2] "sales_target") = true := by
      rw [hq5, hq6, show lookupCell ["price_target", "sales_target"] [some 20, some 2]
        "sales_target" = some 2 from rfl]
      norm_num [cellInBounds]
    have hrp : cellInBounds (quantileLinear [some 0, some 10, some 20] (1/100))
        (quantileLinear [some 0, some 10, some 20] (99/100))
        (lookupCell ["price_target", "sales_target"] [some 20, some 2] "price_target") = false := hr3
    have hinner : remove_outliers_indep dfOutlier ["sales_target"] (1/100) (99/100) =
        .ok (⟨["price_target", "sales_target"], [[some 20, some 2]]⟩ : DataFrame) := by
      simp only [remove_outliers_indep, hg2]
      simp only [dfOutlier, List.filter_cons, List.filter_nil, hrs1, hrs2, hrs3]
      simp
    have hindep : remove_outliers_indep dfOutlier ["price_target", "sales_target"]
        (1/100) (99/100) = .ok (⟨["price_target", "sales_target"], []⟩ : DataFrame) := by
      rw [remove_outliers_indep.eq_def]
      simp only [hg1, hinner]
      simp only [List.filter_cons, List.filter_nil, hrp]
      simp
    exact ⟨dfOutlier, dfMid, (⟨["price_target", "sales_target"], []⟩ : DataFrame), hseq, hindep,
      by decide⟩

/-- C1 counterexample: a one-row frame that contains every one of the 26
schema columns but holds a missing value in is_weekend makes
_prepare_features raise the pandas integer-cast ValueError, so no feature
matrix is returned for it. -/
theorem C1_feature_schema_cex :
    (∀ c ∈ (numerical_features_list ++ categorical_features_list), c ∈ dfNaNWeekend.cols) ∧
    _prepare_features dfNaNWeekend =
      .error (.valueError "Cannot convert non-finite values (NA or inf) to integer") := by
  decide

/-- C1 (amended): for every DataFrame that contains all 26 schema columns
and holds no missing value in is_weekend or is_holiday, _prepare_features
returns a feature matrix whose columns are exactly the 26 schema columns in
the fixed order — the 19 numeric features followed by the 7 categorical
features — together with that ordered name list and the categorical subset;
and for every trained predictor state, the feature-name order written by
save_models is the order recovered by load_models into a fresh predictor,
the order predict then uses. -/
theorem C1_feature_schema_order {M : Type} (df : DataFrame)
    (hcols : ∀ c ∈ (["price", "original_price", "discount_percentage", "stock_level",
        "customer_rating", "review_count", "delivery_days", "is_weekend", "is_holiday",
        "sales_quantity_lag_1", "price_lag_1", "sales_quantity_lag_3", "price_lag_3",
        "sales_quantity_lag_7", "price_lag_7", "sales_quantity_rolling_mean_3",
        "price_rolling_mean_3", "sales_quantity_rolling_mean_7", "price_rolling_mean_7",
        "brand", "region", "category", "seller", "day_of_week", "month", "quarter"] : List String), c ∈ df.cols)
    (hw : ∀ r ∈ df.rows, (lookupCell df.cols r "is_weekend").isSome = true)
    (hh : ∀ r ∈ df.rows, (lookupCell df.cols r "is_holiday").isSome = true)
    (st : PredictorState M) (fs : FileSystem M) (d : String) (pm sm : M) (fn cf : List String)
    (hpm : st.price_model = some pm) (hsm : st.sales_model = some sm)
    (hfn : st.feature_names = some fn) (hcf : st.categorical_features = some cf) :
    (∃ X, _prepare_features df =
        .ok (X, ["price", "original_price", "discount_percentage", "stock_level",
        "customer_rating", "review_count", "delivery_days", "is_weekend", "is_holiday",
        "sales_quantity_lag_1", "price_lag_1", "sales_quantity_lag_3", "price_lag_3",
        "sales_quantity_lag_7", "price_lag_7", "sales_quantity_rolling_mean_3",
        "price_rolling_mean_3", "sales_quantity_rolling_mean_7", "price_rolling_mean_7",
        "brand", "region", "category", "seller", "day_of_week", "month", "quarter"], ["brand", "region", "category", "seller", "day_of_week", "month", "quarter"]) ∧
      X.cols = ["price", "original_price", "discount_percentage", "stock_level",
        "customer_rating", "review_count", "delivery_days", "is_weekend", "is_holiday",
        "sales_quantity_lag_1", "price_lag_1", "sales_quantity_lag_3", "price_lag_3",
        "sales_quantity_lag_7", "price_lag_7", "sales_quantity_rolling_mean_3",
        "price_rolling_mean_3", "sales_quantity_rolling_mean_7", "price_rolling_mean_7",
        "brand", "region", "category", "seller", "day_of_week", "month", "quarter"]) ∧
    (load_models (save_models st fs) (initState M d)).1.feature_names = some fn := by
  constructor
  · have h1 : df.astypeIntCol "is_weekend" = .ok ⟨df.cols, df.rows.map (fun r => setCell df.cols r "is_weekend" (fun v => some (truncRat (v.getD 0))))⟩ :=
      astypeIntCol_ok_of df "is_weekend" (hcols "is_weekend" (by decide)) hw
    have hh2 : ∀ r ∈ df.rows.map (fun r => setCell df.cols r "is_weekend" (fun v => some (truncRat (v.getD 0)))),
        (lookupCell df.cols r "is_holiday").isSome = true := by
      intro r hr
      obtain ⟨r0, hr0, rfl⟩ := List.mem_map.mp hr
      rw [lookupCell_setCell_ne df.cols r0 "is_weekend" "is_holiday" _ (by decide)]
      exact hh r0 hr0
    have h2 : DataFrame.astypeIntCol ⟨df.cols, df.rows.map (fun r => setCell df.cols r "is_weekend" (fun v => some (truncRat (v.getD 0))))⟩ "is_holiday" =
        .ok ⟨df.cols, ((df.rows.map (fun r => setCell df.cols r "is_weekend" (fun v => some (truncRat (v.getD 0))))).map (fun r => setCell df.cols r "is_holiday" (fun v => some (truncRat (v.getD 0)))))⟩ :=
      astypeIntCol_ok_of _ "is_holiday" (hcols "is_holiday" (by decide)) hh2
    have hsel : DataFrame.select ⟨df.cols, ((df.rows.map (fun r => setCell df.cols r "is_weekend" (fun v => some (truncRat (v.getD 0))))).map (fun r => setCell df.cols r "is_holiday" (fun v => some (truncRat (v.getD 0)))))⟩
        (numerical_features_list ++ categorical_features_list) =
        .ok ⟨numerical_features_list ++ categorical_features_list,
          ((df.rows.map (fun r => setCell df.cols r "is_weekend" (fun v => some (truncRat (v.getD 0))))).map (fun r => setCell df.cols r "is_holiday" (fun v => some (truncRat (v.getD 0))))).map (fun r => (numerical_features_list ++ categorical_features_list).map
            (fun c => lookupCell df.cols r c))⟩ :=
      select_ok_of _ _ (fun c hc => hcols c hc)
    have hfinal : _prepare_features df =
        .ok (⟨numerical_features_list ++ categorical_features_list,
          ((df.rows.map (fun r => setCell df.cols r "is_weekend" (fun v => some (truncRat (v.getD 0))))).map (fun r => setCell df.cols r "is_holiday" (fun v => some (truncRat (v.getD 0))))).map (fun r => (numerical_features_list ++ categorical_features_list).map
            (fun c => lookupCell df.cols r c))⟩,
          numerical_features_list ++ categorical_features_list, categorical_features_list) := by
      simp only [_prepare_features, h1, h2, hsel]
    exact ⟨_, hfinal, rfl⟩
  · obtain ⟨d0, p0, s0, f0, c0⟩ := st
    simp only at hpm hsm hfn hcf
    subst hpm hsm hfn hcf
    rw [save_models_all_set, load_models_good pm sm ⟨fn, cf⟩ _ _ rfl rfl rfl]

/-- C1 witness: the amended theorem applied to a concrete frame with every
schema column present and no missing values, and to a concrete trained
state. -/
theorem C1_feature_schema_order_witness :
    ((∀ c ∈ (["price", "original_price", "discount_percentage", "stock_level",
        "customer_rating", "review_count", "delivery_days", "is_weekend", "is_holiday",
        "sales_quantity_lag_1", "price_lag_1", "sales_quantity_lag_3", "price_lag_3",
        "sales_quantity_lag_7", "price_lag_7", "sales_quantity_rolling_mean_3",
        "price_rolling_mean_3", "sales_quantity_rolling_mean_7", "price_rolling_mean_7",
        "brand", "region", "category", "seller", "day_of_week", "month", "quarter"] : List String), c ∈ dfAllCols.cols) ∧
      (∀ r ∈ dfAllCols.rows, (lookupCell dfAllCols.cols r "is_weekend").isSome = true)) ∧
    ((∃ X, _prepare_features dfAllCols =
        .ok (X, ["price", "original_price", "discount_percentage", "stock_level",
        "customer_rating", "review_count", "delivery_days", "is_weekend", "is_holiday",
        "sales_quantity_lag_1", "price_lag_1", "sales_quantity_lag_3", "price_lag_3",
        "sales_quantity_lag_7", "price_lag_7", "sales_quantity_rolling_mean_3",
        "price_rolling_mean_3", "sales_quantity_rolling_mean_7", "price_rolling_mean_7",
        "brand", "region", "category", "seller", "day_of_week", "month", "quarter"], ["brand", "region", "category", "seller", "day_of_week", "month", "quarter"]) ∧
      X.cols = ["price", "original_price", "discount_percentage", "stock_level",
        "customer_rating", "review_count", "delivery_days", "is_weekend", "is_holiday",
        "sales_quantity_lag_1", "price_lag_1", "sales_quantity_lag_3", "price_lag_3",
        "sales_quantity_lag_7", "price_lag_7", "sales_quantity_rolling_mean_3",
        "price_rolling_mean_3", "sales_quantity_rolling_mean_7", "price_rolling_mean_7",
        "brand", "region", "category", "seller", "day_of_week", "month", "quarter"]) ∧
    (load_models (save_models stTrained fsEmptyDir) (initState ℕ "models")).1.feature_names =
      some ["a"]) :=
  ⟨⟨by decide, by decide⟩,
    C1_feature_schema_order dfAllCols (by decide) (by decide) (by decide)
      stTrained fsEmptyDir "models" 1 2 ["a"] [] rfl rfl rfl rfl⟩


/-- C5: saving a trained bundle and loading it back into a fresh predictor
state succeeds, recovers the identical feature schema (feature names and
categorical names), and the loaded bundle produces exactly the same
prediction outcome as the pre-save in-memory bundle on every record. -/
theorem C5_save_load_round_trip {M : Type} (st : PredictorState M) (fs fs0 : FileSystem M)
    (d : String) (runM : M → DataFrame → ℚ) (pm sm : M) (fn cf : List String)
    (hpm : st.price_model = some pm) (hsm : st.sales_model = some sm)
    (hfn : st.feature_names = some fn) (hcf : st.categorical_features = some cf) :
    ∃ st2, load_models (save_models st fs) (initState M d) = (st2, true, []) ∧
      st2.feature_names = st.feature_names ∧
      st2.categorical_features = st.categorical_features ∧
      ∀ product, (predict (save_models st fs) runM st2 product).2.2 =
        (predict fs0 runM st product).2.2 := by
  obtain ⟨d0, p0, s0, f0, c0⟩ := st
  simp only at hpm hsm hfn hcf
  subst hpm hsm hfn hcf
  refine ⟨⟨d, some pm, some sm, some fn, some cf⟩, ?_, rfl, rfl, ?_⟩
  · rw [save_models_all_set, load_models_good pm sm ⟨fn, cf⟩ _ _ rfl rfl rfl]
    rfl
  · intro product
    rfl

/-- C5 witness: the round trip at a concrete trained state over
natural-number model stand-ins. -/
theorem C5_save_load_round_trip_witness :
    ∃ st2, load_models (save_models stTrained fsEmptyDir) (initState ℕ "md") = (st2, true, []) ∧
      st2.feature_names = stTrained.feature_names ∧
      st2.categorical_features = stTrained.categorical_features ∧
      ∀ product, (predict (save_models stTrained fsEmptyDir) (fun m _ => (m : ℚ)) st2 product).2.2 =
        (predict fsEmptyDir (fun m _ => (m : ℚ)) stTrained product).2.2 :=
  C5_save_load_round_trip stTrained fsEmptyDir fsEmptyDir "md" (fun m _ => (m : ℚ))
    1 2 ["a"] [] rfl rfl rfl rfl

/-- C9: after validation and outlier removal and before feature
construction, train drops every row with a missing price_target or
sales_target from the training frame and from the validation frame alike,
while outlier filtering touches the training frame only: the prepared
validation frame is exactly the raw validation frame restricted to rows
with both targets present, and the prepared training frame is the
outlier-filtered training frame restricted the same way. -/
theorem C9_missing_targets_dropped (t v t2 v2 : DataFrame)
    (h : trainDataPrep t v = .ok (t2, v2)) :
    (∀ r ∈ t2.rows, (lookupCell t2.cols r "price_target").isSome = true ∧
      (lookupCell t2.cols r "sales_target").isSome = true) ∧
    (∀ r ∈ v2.rows, (lookupCell v2.cols r "price_target").isSome = true ∧
      (lookupCell v2.cols r "sales_target").isSome = true) ∧
    v2.cols = v.cols ∧
    v2.rows = v.rows.filter (fun r => (["price_target", "sales_target"] : List String).all
      (fun c => (lookupCell v.cols r c).isSome)) ∧
    (∃ t1, remove_outliers t ["price_target", "sales_target"] (1/100) (99/100) = .ok t1 ∧
      t2.cols = t1.cols ∧
      t2.rows = t1.rows.filter (fun r => (["price_target", "sales_target"] : List String).all
        (fun c => (lookupCell t1.cols r c).isSome))) := by
  simp only [trainDataPrep] at h
  split at h
  · exact absurd h (by simp)
  · split at h
    · exact absurd h (by simp)
    · rename_i t1 hro
      split at h
      · exact absurd h (by simp)
      · rename_i t2x hdt
        split at h
        · exact absurd h (by simp)
        · rename_i v2x hdv
          rw [Except.ok.injEq, Prod.mk.injEq] at h
          obtain ⟨ht2, hv2⟩ := h
          subst ht2 hv2
          have hts : t2x = ⟨t1.cols, t1.rows.filter (fun r =>
              (["price_target", "sales_target"] : List String).all
                (fun c => (lookupCell t1.cols r c).isSome))⟩ :=
            dropnaSubset_ok_shape t1 _ t2x hdt
          have hvs : v2x = ⟨v.cols, v.rows.filter (fun r =>
              (["price_target", "sales_target"] : List String).all
                (fun c => (lookupCell v.cols r c).isSome))⟩ :=
            dropnaSubset_ok_shape v _ v2x hdv
          subst hts hvs
          refine ⟨?_, ?_, rfl, rfl, t1, hro, rfl, rfl⟩
          · intro r hr
            have hp := List.of_mem_filter hr
            simp only [List.all_cons, List.all_nil, Bool.and_true, Bool.and_eq_true] at hp
            exact hp
          · intro r hr
            have hp := List.of_mem_filter hr
            simp only [List.all_cons, List.all_nil, Bool.and_true, Bool.and_eq_true] at hp
            exact hp


/-- C9 witness: the theorem applied to a concrete valid pair of frames in
which no row is removed by any stage. -/
theorem C9_missing_targets_dropped_witness :
    trainDataPrep tW tW = .ok (tW, tW) ∧
    ((∀ r ∈ tW.rows, (lookupCell tW.cols r "price_target").isSome = true ∧
        (lookupCell tW.cols r "sales_target").isSome = true) ∧
      (∀ r ∈ tW.rows, (lookupCell tW.cols r "price_target").isSome = true ∧
        (lookupCell tW.cols r "sales_target").isSome = true) ∧
      tW.cols = tW.cols ∧
      tW.rows = tW.rows.filter (fun r => (["price_target", "sales_target"] : List String).all
        (fun c => (lookupCell tW.cols r c).isSome)) ∧
      (∃ t1, remove_outliers tW ["price_target", "sales_target"] (1/100) (99/100) = .ok t1 ∧
        tW.cols = t1.cols ∧
        tW.rows = t1.rows.filter (fun r => (["price_target", "sales_target"] : List String).all
          (fun c => (lookupCell t1.cols r c).isSome)))) := by
  have hval : validate_data tW = true := by decide
  have hgW : tW.getCol "price_target" = .ok [some 5, some 5, some 5, some 5, some 5, some 5, some 5, some 5, some 5, some 5] := by decide
  have hgW2 : tW.getCol "sales_target" = .ok [some 5, some 5, some 5, some 5, some 5, some 5, some 5, some 5, some 5, some 5] := by decide
  have hqa : quantileLinear [some 5, some 5, some 5, some 5, some 5, some 5, some 5, some 5, some 5, some 5] (1/100) = some 5 := by
    norm_num [quantileLinear, sortQ, insertSorted, Int.fdiv, List.filterMap_cons,
      List.filterMap_nil, id_eq]
  have hqb : quantileLinear [some 5, some 5, some 5, some 5, some 5, some 5, some 5, some 5, some 5, some 5] (99/100) = some 5 := by
    norm_num [quantileLinear, sortQ, insertSorted, Int.fdiv, List.filterMap_cons,
      List.filterMap_nil, id_eq]
    norm_num [show Int.toNat 8 = 8 from rfl, List.getD]
  have hbW : cellInBounds (quantileLinear [some 5, some 5, some 5, some 5, some 5, some 5, some 5, some 5, some 5, some 5] (1/100)) (quantileLinear [some 5, some 5, some 5, some 5, some 5, some 5, some 5, some 5, some 5, some 5] (99/100))
      (lookupCell tW.cols rowW "price_target") = true := by
    rw [hqa, hqb, (by decide : lookupCell tW.cols rowW "price_target" = some 5)]
    norm_num [cellInBounds]
  have hbW2 : cellInBounds (quantileLinear [some 5, some 5, some 5, some 5, some 5, some 5, some 5, some 5, some 5, some 5] (1/100)) (quantileLinear [some 5, some 5, some 5, some 5, some 5, some 5, some 5, some 5, some 5, some 5] (99/100))
      (lookupCell tW.cols rowW "sales_target") = true := by
    rw [hqa, hqb, (by decide : lookupCell tW.cols rowW "sales_target" = some 5)]
    norm_num [cellInBounds]
  have hstep1 : outlierStep tW "price_target" (1/100) (99/100) = .ok tW := by
    rw [outlierStep_eval0 tW "price_target" (1/100) (99/100) [some 5, some 5, some 5, some 5, some 5, some 5, some 5, some 5, some 5, some 5]
      (quantileLinear [some 5, some 5, some 5, some 5, some 5, some 5, some 5, some 5, some 5, some 5] (1/100)) (quantileLinear [some 5, some 5, some 5, some 5, some 5, some 5, some 5, some 5, some 5, some 5] (99/100)) hgW rfl rfl]
    have hfil : tW.rows.filter (fun r => cellInBounds (quantileLinear [some 5, some 5, some 5, some 5, some 5, some 5, some 5, some 5, some 5, some 5] (1/100))
        (quantileLinear [some 5, some 5, some 5, some 5, some 5, some 5, some 5, some 5, some 5, some 5] (99/100)) (lookupCell tW.cols r "price_target")) = tW.rows := by
      apply List.filter_eq_self.mpr
      intro r hr
      have hre : r = rowW := by simpa [tW] using hr
      subst hre
      exact hbW
    rw [hfil]
  have hstep2 : outlierStep tW "sales_target" (1/100) (99/100) = .ok tW := by
    rw [outlierStep_eval0 tW "sales_target" (1/100) (99/100) [some 5, some 5, some 5, some 5, some 5, some 5, some 5, some 5, some 5, some 5]
      (quantileLinear [some 5, some 5, some 5, some 5, some 5, some 5, some 5, some 5, some 5, some 5] (1/100)) (quantileLinear [some 5, some 5, some 5, some 5, some 5, some 5, some 5, some 5, some 5, some 5] (99/100)) hgW2 rfl rfl]
    have hfil : tW.rows.filter (fun r => cellInBounds (quantileLinear [some 5, some 5, some 5, some 5, some 5, some 5, some 5, some 5, some 5, some 5] (1/100))
        (quantileLinear [some 5, some 5, some 5, some 5, some 5, some 5, some 5, some 5, some 5, some 5] (99/100)) (lookupCell tW.cols r "sales_target")) = tW.rows := by
      apply List.filter_eq_self.mpr
      intro r hr
      have hre : r = rowW := by simpa [tW] using hr
      subst hre
      exact hbW2
    rw [hfil]
  have hrem : remove_outliers tW ["price_target", "sales_target"] (1/100) (99/100) = .ok tW := by
    simp only [remove_outliers, hstep1, hstep2]
  have hdrop : tW.dropnaSubset ["price_target", "sales_target"] = .ok tW := by decide
  have hprep : trainDataPrep tW tW = .ok (tW, tW) := by
    simp only [trainDataPrep]
    rw [if_neg (by simp [hval])]
    simp only [hrem, hdrop]
  exact ⟨hprep, C9_missing_targets_dropped tW tW tW tW hprep⟩


theorem getLast?_two_append_pair {α : Type} (a b c r : α) (ls : List α) :
    ([a, b] ++ ls ++ [c, r]).getLast? = some r :=
  getLast?_append_pair ([a, b] ++ ls) c r

/-- C4: every predict invocation either exits 0 with the prediction object
as its last stdout line, or exits 1 with an error object as its last stdout
line — every failure is caught at the top level of the predict path; and
when the input record lacks a schema feature (is_weekend and is_holiday
also absent, so no cast runs first), the reported error is the pandas
KeyError whose message names the missing columns, among them that feature. -/
theorem C4_predict_failures_reported {M : Type} (fs : FileSystem M)
    (runM : M → DataFrame → ℚ) (parse : Except Unit (List (String × Cell)))
    (rawArg modelDir : String) :
    (((mainPredict fs runM parse rawArg modelDir).2.2 = 0 ∧
       ∃ p s, (mainPredict fs runM parse rawArg modelDir).2.1.getLast? =
         some (jsonPredLine p s)) ∨
     ((mainPredict fs runM parse rawArg modelDir).2.2 = 1 ∧
       ∃ m, (mainPredict fs runM parse rawArg modelDir).2.1.getLast? =
         some (jsonErrorLine m))) ∧
    (∀ (product : List (String × Cell)) (pm sm : M) (fi : FeatureInfo) (f : String),
      parse = .ok product →
      fs.price_model = .good pm → fs.sales_model = .good sm → fs.feature_info = .good fi →
      f ∈ fi.feature_names → f ∉ product.map Prod.fst →
      "is_weekend" ∉ product.map Prod.fst → "is_holiday" ∉ product.map Prod.fst →
      (mainPredict fs runM parse rawArg modelDir).2.2 = 1 ∧
      ∃ missing, f ∈ missing ∧
        (mainPredict fs runM parse rawArg modelDir).2.1.getLast? =
          some (jsonErrorLine (PyErr.keyError missing).msgStr)) := by
  constructor
  · cases parse with
    | error u =>
      right
      exact ⟨rfl, "Invalid JSON input for prediction", rfl⟩
    | ok product =>
      simp only [mainPredict]
      rcases hp : predict { fs with dirExists := true } runM (initState M modelDir) product
        with ⟨st2, ls, res⟩
      cases res with
      | ok v =>
        rcases v with ⟨p, s⟩
        left
        exact ⟨rfl, p, s, getLast?_two_append_pair _ _ _ _ ls⟩
      | error e =>
        right
        exact ⟨rfl, e.msgStr, getLast?_two_append_pair _ _ _ _ ls⟩
  · intro product pm sm fi f hparse h1 h2 h3 hf hnf hwabs hhabs
    subst hparse
    have hload : load_models { fs with dirExists := true } (initState M modelDir) =
        ((⟨modelDir, some pm, some sm, some fi.feature_names,
          some fi.categorical_features⟩ : PredictorState M), true, []) :=
      load_models_good pm sm fi { fs with dirExists := true } (initState M modelDir) h1 h2 h3
    have hsel : DataFrame.select (⟨product.map Prod.fst, [product.map Prod.snd]⟩ : DataFrame)
        fi.feature_names =
        .error (.keyError (fi.feature_names.filter
          (fun c => decide (c ∉ product.map Prod.fst)))) :=
      select_error_of _ _ f hf hnf
    have hpr : predictRecord runM (⟨modelDir, some pm, some sm, some fi.feature_names,
        some fi.categorical_features⟩ : PredictorState M) product =
        .error (.keyError (fi.feature_names.filter
          (fun c => decide (c ∉ product.map Prod.fst)))) := by
      simp only [predictRecord, if_neg hwabs, if_neg hhabs, hsel]
    have hpredict : predict { fs with dirExists := true } runM (initState M modelDir) product =
        ((⟨modelDir, some pm, some sm, some fi.feature_names,
          some fi.categorical_features⟩ : PredictorState M), [],
         .error (.keyError (fi.feature_names.filter
           (fun c => decide (c ∉ product.map Prod.fst))))) := by
      simp only [predict]
      rw [if_pos (show ((initState M modelDir).price_model.isNone ||
        (initState M modelDir).sales_model.isNone) = true from rfl)]
      rw [hload]
      simp only [hpr]
    constructor
    · simp only [mainPredict, hpredict]
    · refine ⟨fi.feature_names.filter (fun c => decide (c ∉ product.map Prod.fst)), ?_, ?_⟩
      · exact List.mem_filter.mpr ⟨hf, by simpa using hnf⟩
      · simp only [mainPredict, hpredict]
        exact getLast?_two_append_pair _ _ _ _ []

/-- C4 witness: a predict invocation over a stored schema of two features
whose input record lacks the lag feature. -/
theorem C4_predict_failures_reported_witness :
    (mainPredict fsBundle (fun _ _ => (0 : ℚ)) (.ok [("price", some 10)]) "r" "models").2.2 = 1 ∧
    ∃ missing, "sales_quantity_lag_1" ∈ missing ∧
      (mainPredict fsBundle (fun _ _ => (0 : ℚ)) (.ok [("price", some 10)])
          "r" "models").2.1.getLast? =
        some (jsonErrorLine (PyErr.keyError missing).msgStr) :=
  (C4_predict_failures_reported fsBundle (fun _ _ => (0 : ℚ)) (.ok [("price", some 10)])
      "r" "models").2
    [("price", some 10)] () () ⟨["price", "sales_quantity_lag_1"], []⟩ "sales_quantity_lag_1"
    rfl rfl rfl rfl (by decide) (by decide) (by decide) (by decide)

/-- C7 counterexample: a concrete predict invocation against an empty model
directory prints the load-failure diagnostic, a stdout line that is neither
the machine-readable JSON result of that run nor prefixed with INFO:, so
the claim that every non-result stdout line carries the INFO: prefix is
false. -/
theorem C7_stdout_info_prefix_cex :
    ¬ (∀ l ∈ (mainPredict (⟨false, .absent, .absent, .absent⟩ : FileSystem Unit)
          (fun _ _ => 0) (.ok []) "x" "models").2.1,
        l = jsonErrorLine "Models not trained or loaded properly" ∨ isInfoLine l = true) := by
  intro hall
  have h := hall (loadErrLine (.fileNotFound "models/price_model.pkl")) (by decide)
  rcases h with h | h
  · exact absurd h (by decide)
  · exact absurd h (by decide)

/-- C7 (amended): on every predict invocation, the last stdout line is the
single machine-readable JSON result — the prediction object or the error
object — and every earlier stdout line either carries the INFO: prefix or
is the unprefixed diagnostic of a failed model load, prefixed Error loading
models:. -/
theorem C7_stdout_shape {M : Type} (fs : FileSystem M) (runM : M → DataFrame → ℚ)
    (parse : Except Unit (List (String × Cell))) (rawArg modelDir : String) :
    ∃ pre r, (mainPredict fs runM parse rawArg modelDir).2.1 = pre ++ [r] ∧
      ((∃ m, r = jsonErrorLine m) ∨ (∃ p s, r = jsonPredLine p s)) ∧
      ∀ l ∈ pre, isInfoLine l = true ∨ isLoadErrLine l = true := by
  cases parse with
  | error u =>
    refine ⟨[infoLine ("Запуск с параметрами: action=predict, data=" ++ rawArg ++
        ", model_dir=" ++ modelDir),
      infoLine "ОШИБКА: некорректный формат JSON для предсказания"],
      jsonErrorLine "Invalid JSON input for prediction", rfl, .inl ⟨_, rfl⟩, ?_⟩
    intro l hl
    simp only [List.mem_cons, List.not_mem_nil, or_false] at hl
    rcases hl with rfl | rfl
    · exact .inl (isInfoLine_infoLine _)
    · exact .inl (isInfoLine_infoLine _)
  | ok product =>
    simp only [mainPredict]
    rcases hp : predict { fs with dirExists := true } runM (initState M modelDir) product
      with ⟨st2, ls, res⟩
    have hls : ∀ x ∈ ls, isLoadErrLine x = true := by
      have h0 := predict_lines { fs with dirExists := true } runM (initState M modelDir) product
      rw [hp] at h0
      exact h0
    cases res with
    | ok v =>
      rcases v with ⟨p, s⟩
      refine ⟨[infoLine ("Запуск с параметрами: action=predict, data=" ++ rawArg ++
          ", model_dir=" ++ modelDir),
        infoLine "Запуск предсказания для данных продукта"] ++ ls ++
          [infoLine ("Результат предсказания: цена=" ++ fmt2 p ++ ", продажи=" ++ fmt2 s)],
        jsonPredLine p s, by simp, .inr ⟨p, s, rfl⟩, ?_⟩
      intro l hl
      simp only [List.mem_append, List.mem_cons, List.not_mem_nil, or_false] at hl
      rcases hl with ((rfl | rfl) | hl) | rfl
      · exact .inl (isInfoLine_infoLine _)
      · exact .inl (isInfoLine_infoLine _)
      · exact .inr (hls l hl)
      · exact .inl (isInfoLine_infoLine _)
    | error e =>
      refine ⟨[infoLine ("Запуск с параметрами: action=predict, data=" ++ rawArg ++
          ", model_dir=" ++ modelDir),
        infoLine "Запуск предсказания для данных продукта"] ++ ls ++
          [infoLine ("ОШИБКА при предсказании: " ++ e.msgStr)],
        jsonErrorLine e.msgStr, by simp, .inl ⟨_, rfl⟩, ?_⟩
      intro l hl
      simp only [List.mem_append, List.mem_cons, List.not_mem_nil, or_false] at hl
      rcases hl with ((rfl | rfl) | hl) | rfl
      · exact .inl (isInfoLine_infoLine _)
      · exact .inl (isInfoLine_infoLine _)
      · exact .inr (hls l hl)
      · exact .inl (isInfoLine_infoLine _)


end MLService
